import Mathlib

/-!
Verification of the configuration-resolution layer of lightning-terminal
(`config.go`).  Go strings are modelled as lists of characters, Go's
standard-library helpers (`strings.TrimSpace`, `strings.Contains`,
`strings.Replace` with n = 1, `filepath.Join`) as executable Lean
functions, and the external collaborators (file system, environment,
lnd / lndclient / sub-daemon validators) as explicit oracle parameters.
-/

namespace LitConfig

/-- Go strings, modelled as lists of characters (byte-for-byte for the
ASCII data all the configuration values in question consist of). -/
abbrev GoStr := List Char

/-- Whitespace recognised by Go's `unicode.IsSpace` restricted to the
ASCII range, which is what `strings.TrimSpace` strips on the
configuration values in question. -/
def isSpaceChar (c : Char) : Bool :=
  c = ' ' ∨ c = '\t' ∨ c = '\n' ∨ c = '\r' ∨ c = '\x0b' ∨ c = '\x0c'

/-- Model of Go `strings.TrimSpace`: drop leading and trailing
whitespace. -/
def trimSpace (s : GoStr) : GoStr :=
  ((s.dropWhile isSpaceChar).reverse.dropWhile isSpaceChar).reverse

/-- Model of Go `strings.Contains(s, pat)`: does `pat` occur as a
contiguous substring of `s`? -/
def goContainsSub (pat : GoStr) : GoStr → Bool
  | [] => pat.isEmpty
  | c :: rest => pat.isPrefixOf (c :: rest) || goContainsSub pat rest

/-- Model of Go `strings.Replace(s, old, new, 1)`: replace the first
occurrence of `old` (scanning left to right) by `nw`. -/
def goReplaceOne (old nw : GoStr) : GoStr → GoStr
  | [] => []
  | c :: rest =>
    if old.isPrefixOf (c :: rest) then nw ++ (c :: rest).drop old.length
    else c :: goReplaceOne old nw rest

/-- Model of Go `filepath.Join` of two components (for clean, non-empty
components, as all paths compared in `config.go` are, Go's `Join` is
exactly separator insertion). -/
def filepathJoin2 (a b : GoStr) : GoStr := a ++ '/' :: b

/-- `filepath.Join` of four components. -/
def filepathJoin4 (a b c d : GoStr) : GoStr :=
  filepathJoin2 (filepathJoin2 (filepathJoin2 a b) c) d

/-- The final path segment of a path: the characters after the last
separator. -/
def lastPathSegment (p : GoStr) : GoStr :=
  ((p.reverse.takeWhile (fun c => c ≠ '/')).reverse)

/- Constants from `config.go` (string constants are spelled there as Go
string literals; network names also appear in the flag `choice` tags). -/

/-- `defaultNetwork = "mainnet"` -/
def defaultNetwork : GoStr := "mainnet".data

/-- Network name `"testnet"` (flag choice). -/
def testnetStr : GoStr := "testnet".data

/-- Network name `"regtest"` (flag choice). -/
def regtestStr : GoStr := "regtest".data

/-- Network name `"simnet"` (flag choice). -/
def simnetStr : GoStr := "simnet".data

/-- `defaultLndChainSubDir = "chain"` -/
def defaultLndChainSubDir : GoStr := "chain".data

/-- `defaultLndChain = "bitcoin"` -/
def defaultLndChain : GoStr := "bitcoin".data

/-- `ModeIntegrated = "integrated"` -/
def ModeIntegrated : GoStr := "integrated".data

/-- `ModeRemote = "remote"` -/
def ModeRemote : GoStr := "remote".data

/-- `defaultTLSCertFilename = "tls.cert"` -/
def defaultTLSCertFilename : GoStr := "tls.cert".data

/-- `defaultTLSKeyFilename = "tls.key"` -/
def defaultTLSKeyFilename : GoStr := "tls.key".data

/-- `defaultLogDirname = "logs"` -/
def defaultLogDirname : GoStr := "logs".data

/-- `defaultLetsEncryptSubDir = "letsencrypt"` -/
def defaultLetsEncryptSubDir : GoStr := "letsencrypt".data

/-- `uiPasswordMinLength = 8` -/
def uiPasswordMinLength : Nat := 8

/-- `defaultRemoteLndMacDir = filepath.Join(lndDefaultConfig.DataDir,
defaultLndChainSubDir, defaultLndChain, defaultNetwork)`, parameterised
by lnd's default data directory (a value of the external lnd package). -/
def defaultRemoteLndMacDir (dataDir : GoStr) : GoStr :=
  filepathJoin4 dataDir defaultLndChainSubDir defaultLndChain defaultNetwork

/-- Errors the resolution pipeline of `config.go` can fail with.  Each
constructor corresponds to one `return nil, err` site. -/
inductive Err
  | configSyntax            -- flags.IniParse returned a *flags.IniError
  | flagParse               -- flags.Parse failed
  | dirCreateFailed         -- makeDirectories failed
  | invalidMode             -- default branch of the LndMode switch
  | invalidNetwork          -- lndclient ChainParams failed (remote mode)
  | conflictingMacaroonConfig -- both macaroon dir and path set
  | logRotationFailed       -- InitLogRotator failed (remote mode)
  | debugLevelFailed        -- ParseAndSetDebugLevels failed (remote mode)
  | lndValidateFailed       -- lnd.ValidateConfig failed (integrated mode)
  | noNetworkSelected       -- getNetwork found no network flag set
  | letsEncryptHostMissing  -- LetsEncrypt set without a host
  | fileUnreadable          -- ioutil.ReadFile of the password file failed
  | envVarEmpty             -- password environment variable empty
  | noCredentialConfigured  -- no UI password source configured
  | credentialTooWeak       -- UI password shorter than uiPasswordMinLength
  | tooManyListeners        -- more than one lnd RPC listener
  | loopValidateFailed      -- loopd.Validate failed
  | poolValidateFailed      -- pool.Validate failed
  | faradayValidateFailed   -- faraday.ValidateConfig failed
  | bitcoinClientFailed     -- chain.NewBitcoinClient failed
deriving DecidableEq, Repr

/-- Model of `readUIPassword` (config.go lines 551-586).  `fileRead`
models `ioutil.ReadFile` (`none` means a read error), `getenv` models
`os.Getenv` (which returns the empty string for unset variables).
It returns the resolved value of `config.UIPassword`. -/
def readUIPassword (fileRead : GoStr → Option GoStr) (getenv : GoStr → GoStr)
    (uiPassword uiPasswordFile uiPasswordEnv : GoStr) : Except Err GoStr :=
  -- A password is passed in directly.
  if (trimSpace uiPassword).length > 0 then
    Except.ok (trimSpace uiPassword)
  -- A file that contains the password is specified.
  else if (trimSpace uiPasswordFile).length > 0 then
    match fileRead (trimSpace uiPasswordFile) with
    | none => Except.error Err.fileUnreadable
    | some content => Except.ok (trimSpace content)
  -- The name of an environment variable was specified.
  else if (trimSpace uiPasswordEnv).length > 0 then
    let content := getenv (trimSpace uiPasswordEnv)
    if content.length = 0 then Except.error Err.envVarEmpty
    else Except.ok (trimSpace content)
  else Except.error Err.noCredentialConfigured

/-- Model of the in-process dial-address loopback rewrite in
`lndConnectParams` (config.go lines 222-233): a `switch` on
`strings.Contains`, rewriting the first occurrence of the wildcard
literal via `strings.Replace(..., 1)`. -/
def rewriteLndDialAddr (addr : GoStr) : GoStr :=
  if goContainsSub ("0.0.0.0".data) addr then
    goReplaceOne ("0.0.0.0".data) ("127.0.0.1".data) addr
  else if goContainsSub ("[::]".data) addr then
    goReplaceOne ("[::]".data) ("[::1]".data) addr
  else addr

/-- The bitcoin network selection flags of the integrated lnd node
(`lncfg.Chain`), as consumed by `getNetwork`. -/
structure Chain where
  mainNet : Bool
  testNet3 : Bool
  regTest : Bool
  simNet : Bool
deriving DecidableEq, Repr

/-- Model of `getNetwork` (config.go lines 530-547). -/
def getNetwork (cfg : Chain) : Except Err GoStr :=
  if cfg.mainNet then Except.ok defaultNetwork
  else if cfg.testNet3 then Except.ok testnetStr
  else if cfg.regTest then Except.ok regtestStr
  else if cfg.simNet then Except.ok simnetStr
  else Except.error Err.noNetworkSelected

/-- `RemoteDaemonConfig` (config.go lines 166-187). -/
structure RemoteDaemonConfig where
  network : GoStr
  rpcServer : GoStr
  macaroonDir : GoStr
  macaroonPath : GoStr
  tlsCertPath : GoStr
deriving DecidableEq, Repr

/-- `RemoteConfig` (config.go lines 151-162), restricted to the fields
the resolution logic touches. -/
structure RemoteConfig where
  litTLSCertPath : GoStr
  litTLSKeyPath : GoStr
  litLogDir : GoStr
  lnd : RemoteDaemonConfig
deriving DecidableEq, Repr

/-- `Config` (config.go lines 114-147), restricted to the fields the
resolution logic reads or writes.  `rpcListenersCount` stands for
`len(cfg.Lnd.RPCListeners)`, `lndBitcoin` for `cfg.Lnd.Bitcoin`, and
`faradayChainConn` for `cfg.Faraday.ChainConn`. -/
structure Config where
  uiPassword : GoStr
  uiPasswordFile : GoStr
  uiPasswordEnv : GoStr
  letsEncrypt : Bool
  letsEncryptHost : GoStr
  letsEncryptDir : GoStr
  lndMode : GoStr
  litDir : GoStr
  remote : RemoteConfig
  lndBitcoin : Chain
  rpcListenersCount : Nat
  faradayChainConn : Bool
  network : GoStr
deriving DecidableEq, Repr

/-- The external collaborators of the resolution pipeline: values and
functions that live outside `config.go` (lnd, lndclient, btcutil, the
file system, the environment, the sub-daemon validators).  Each field
models one external call as an oracle. -/
structure Externals where
  /-- `lndDefaultConfig.DataDir` -/
  dataDir : GoStr
  /-- `defaultLitDir = btcutil.AppDataDir("lit", false)` -/
  defaultLitDir : GoStr
  /-- Does `lndclient.Network(n).ChainParams()` succeed? -/
  chainParamsOk : GoStr → Bool
  /-- `lnd.CleanAndExpandPath` / `lncfg.CleanAndExpandPath` -/
  cleanExpand : GoStr → GoStr
  /-- Does `makeDirectories` (os.MkdirAll) succeed on this path? -/
  mkdirOk : GoStr → Bool
  /-- `ioutil.ReadFile` (`none` = read error) -/
  fileRead : GoStr → Option GoStr
  /-- `os.Getenv` (empty string when unset) -/
  getenv : GoStr → GoStr
  /-- Does `lnd.ValidateConfig` succeed (integrated mode)? -/
  lndValidateOk : Bool
  /-- Does `logWriter.InitLogRotator` succeed? -/
  logRotatorOk : Bool
  /-- Does `build.ParseAndSetDebugLevels` succeed? -/
  debugLevelOk : Bool
  /-- Does `loopd.Validate` succeed? -/
  loopValidateOk : Bool
  /-- Does `pool.Validate` succeed? -/
  poolValidateOk : Bool
  /-- Does `faraday.ValidateConfig` succeed? -/
  faradayValidateOk : Bool
  /-- Does `chain.NewBitcoinClient` succeed? -/
  bitcoinClientOk : Bool

/-- The directory part of a path (model of `filepath.Dir`): everything
before the last separator. -/
def filepathDir (p : GoStr) : GoStr :=
  ((p.reverse.dropWhile (fun c => c ≠ '/')).drop 1).reverse

/-- The macaroon directory after the network-adjustment step of
`validateRemoteModeConfig` (config.go lines 476-487): if the remote
network is not the default and the macaroon directory is still at its
default, it is rewritten to the network-specific subdirectory. -/
def adjustedMacaroonDir (ext : Externals) (rd : RemoteDaemonConfig) : GoStr :=
  if rd.network ≠ defaultNetwork ∧
      rd.macaroonDir = defaultRemoteLndMacDir ext.dataDir then
    filepathJoin4 ext.dataDir defaultLndChainSubDir defaultLndChain rd.network
  else rd.macaroonDir

/-- The path-rewriting steps of `validateRemoteModeConfig` (config.go
lines 476-500): macaroon-directory network adjustment, re-rooting of
lit's own files under a non-default lit directory, and path cleaning. -/
def remoteResolvePaths (ext : Externals) (cfg : Config) : Config :=
  let r := cfg.remote
  let r := { r with lnd := { r.lnd with
    macaroonDir := adjustedMacaroonDir ext r.lnd } }
  let litDir := ext.cleanExpand cfg.litDir
  let r :=
    if litDir ≠ ext.defaultLitDir then
      { r with
        litTLSCertPath := filepathJoin2 litDir defaultTLSCertFilename,
        litTLSKeyPath := filepathJoin2 litDir defaultTLSKeyFilename,
        litLogDir := filepathJoin2 litDir defaultLogDirname }
    else r
  let r := { r with
    litTLSCertPath := ext.cleanExpand r.litTLSCertPath,
    litTLSKeyPath := ext.cleanExpand r.litTLSKeyPath,
    litLogDir := ext.cleanExpand r.litLogDir }
  { cfg with remote := r }

/-- The directory-creation and logging-setup tail of
`validateRemoteModeConfig` (config.go lines 502-527): create the parent
directories of the certificate files, then start the log rotator and
set the debug levels. -/
def remoteSetupResult (ext : Externals) (cfg2 : Config) : Except Err Unit :=
  if ext.mkdirOk (filepathDir cfg2.remote.litTLSCertPath) = false then
    Except.error Err.dirCreateFailed
  else if ext.mkdirOk (filepathDir cfg2.remote.litTLSKeyPath) = false then
    Except.error Err.dirCreateFailed
  else if ext.logRotatorOk = false then
    Except.error Err.logRotationFailed
  else if ext.debugLevelOk = false then
    Except.error Err.debugLevelFailed
  else Except.ok ()

/-- Model of `validateRemoteModeConfig` (config.go lines 457-528).  The
Go function mutates `cfg` through a pointer; the model passes the state
explicitly and returns the updated configuration next to the error
result (the mutations performed before an error return are kept, as they
are in Go). -/
def validateRemoteModeConfig (ext : Externals) (cfg : Config) :
    Config × Except Err Unit :=
  -- Validate the network string by resolving its chain parameters.
  if ext.chainParamsOk cfg.remote.lnd.network = false then
    (cfg, Except.error Err.invalidNetwork)
  -- Macaroon dir and macaroon path are mutually exclusive.
  else if cfg.remote.lnd.macaroonDir ≠ defaultRemoteLndMacDir ext.dataDir ∧
      cfg.remote.lnd.macaroonPath ≠ [] then
    ({ cfg with network := cfg.remote.lnd.network },
     Except.error Err.conflictingMacaroonConfig)
  else
    let cfg2 := remoteResolvePaths ext
      { cfg with network := cfg.remote.lnd.network }
    (cfg2, remoteSetupResult ext cfg2)

/-- Outcome of `flags.IniParse` on the config file: parsed fine, a
`*flags.IniError` (malformed file), or another read error (most
importantly: the file does not exist). -/
inductive FileParseResult
  | parsed
  | iniError
  | readError
deriving DecidableEq, Repr

/-- The outcomes of the flag-parsing passes, which are external flag
library calls on argv. -/
structure ParseInputs where
  /-- `flags.Parse(preCfg)` in `loadAndValidateConfig` -/
  preFlagsOk : Bool
  /-- the second `flags.Parse(cfg)` inside `loadConfigFile` -/
  flagsOk : Bool
  /-- `flags.IniParse(configFilePath, cfg)` -/
  fileResult : FileParseResult
deriving DecidableEq, Repr

/-- Model of `loadConfigFile` (config.go lines 378-453).  The returned
`Bool` records whether the deferred config-file warning was logged
during the run (`log.Warnf` at lines 448-450 fires only on the success
path, right before the return).  All fatal-error paths return before the
warning is logged. -/
def loadConfigFile (ext : Externals) (inp : ParseInputs) (cfg : Config) :
    Bool × Except Err Config :=
  -- A *flags.IniError from parsing the config file is immediately fatal;
  -- any other error (e.g. the file is absent) is deferred as a warning.
  if inp.fileResult = FileParseResult.iniError then
    (false, Except.error Err.configSyntax)
  -- The remaining command line options are parsed again.
  else if inp.flagsOk = false then (false, Except.error Err.flagParse)
  -- The lit directory is created if it does not yet exist.
  else if ext.mkdirOk (ext.cleanExpand cfg.litDir) = false then
    (false, Except.error Err.dirCreateFailed)
  -- Mode switch.
  else if cfg.lndMode = ModeIntegrated then
    if ext.lndValidateOk = false then
      (false, Except.error Err.lndValidateFailed)
    else
      match getNetwork cfg.lndBitcoin with
      | Except.error e => (false, Except.error e)
      | Except.ok n =>
        (decide (inp.fileResult = FileParseResult.readError),
         Except.ok { cfg with network := n })
  else if cfg.lndMode = ModeRemote then
    match validateRemoteModeConfig ext cfg with
    | (_, Except.error e) => (false, Except.error e)
    | (cfg', Except.ok _) =>
      (decide (inp.fileResult = FileParseResult.readError), Except.ok cfg')
  else (false, Except.error Err.invalidMode)

/-- The Let's Encrypt cache directory after the re-rooting step at the
start of the validation that follows `loadConfigFile` (config.go lines
305-313). -/
def resolvedLetsEncryptDir (ext : Externals) (cfg : Config) : GoStr :=
  let litDir := ext.cleanExpand cfg.litDir
  let led := ext.cleanExpand cfg.letsEncryptDir
  if litDir ≠ ext.defaultLitDir ∧
      led = filepathJoin2 ext.defaultLitDir defaultLetsEncryptSubDir
  then filepathJoin2 litDir defaultLetsEncryptSubDir
  else led

/-- The UI password length check and the sub-daemon validation tail of
`loadAndValidateConfig` (config.go lines 329-371), run on the
configuration whose `uiPassword` field already holds the resolved
credential. -/
def lengthAndSubdaemonChecks (ext : Externals) (w : Bool) (cfg : Config) :
    Bool × Except Err Config :=
  if cfg.uiPassword.length < uiPasswordMinLength then
    (w, Except.error Err.credentialTooWeak)
  else if 1 < cfg.rpcListenersCount then
    (w, Except.error Err.tooManyListeners)
  else if ext.loopValidateOk = false then
    (w, Except.error Err.loopValidateFailed)
  else if ext.poolValidateOk = false then
    (w, Except.error Err.poolValidateFailed)
  else if ext.faradayValidateOk = false then
    (w, Except.error Err.faradayValidateFailed)
  else if cfg.faradayChainConn ∧ ext.bitcoinClientOk = false then
    (w, Except.error Err.bitcoinClientFailed)
  else (w, Except.ok cfg)

/-- The validation `loadAndValidateConfig` performs after the Let's
Encrypt directory has been re-rooted: Let's Encrypt checks, UI password
resolution, then `lengthAndSubdaemonChecks`. -/
def validateAfterDir (ext : Externals) (w : Bool) (cfg : Config) :
    Bool × Except Err Config :=
  if cfg.letsEncrypt ∧ cfg.letsEncryptHost = [] then
    (w, Except.error Err.letsEncryptHostMissing)
  else if cfg.letsEncrypt ∧ ext.mkdirOk cfg.letsEncryptDir = false then
    (w, Except.error Err.dirCreateFailed)
  else
    match readUIPassword ext.fileRead ext.getenv cfg.uiPassword
        cfg.uiPasswordFile cfg.uiPasswordEnv with
    | Except.error e => (w, Except.error e)
    | Except.ok pw =>
      lengthAndSubdaemonChecks ext w { cfg with uiPassword := pw }

/-- Model of the validation `loadAndValidateConfig` performs after
`loadConfigFile` has returned (config.go lines 300-373): Let's Encrypt
checks, UI password resolution, password length check, listener count
check, and the sub-daemon validators.  `w` is the warning flag handed
through from `loadConfigFile`. -/
def validateAfterLoad (ext : Externals) (w : Bool) (cfg : Config) :
    Bool × Except Err Config :=
  validateAfterDir ext w
    { cfg with letsEncryptDir := resolvedLetsEncryptDir ext cfg }

/-- Model of `loadAndValidateConfig` (config.go lines 272-374): the
first flag-parsing pass, then `loadConfigFile`, then the remaining
validation.  (The version-query early exit is out of scope of the
claims and omitted.)  The `Bool` records whether the deferred
config-file warning was logged during the run. -/
def loadAndValidateConfig (ext : Externals) (inp : ParseInputs)
    (preCfg : Config) : Bool × Except Err Config :=
  if inp.preFlagsOk = false then (false, Except.error Err.flagParse)
  else
    match loadConfigFile ext inp preCfg with
    | (w, Except.error e) => (w, Except.error e)
    | (w, Except.ok cfg) => validateAfterLoad ext w cfg

/-- `Except.isOk` for the pipeline's result type. -/
def exceptIsOk {ε α : Type} : Except ε α → Bool
  | Except.ok _ => true
  | Except.error _ => false

/-- Model of the self-signed branch of `buildTLSConfigForHttp2`
(config.go lines 627-650, the `LndMode == ModeRemote` case without
Let's Encrypt).  The file system is a map from paths to file contents
(`none` = the file does not exist); `lnrpc.FileExists` is `isSome`.
`genCert`/`genKey` are the contents `cert.GenCertPair` would write.
Returns the file system after the call and whether a new pair was
generated. -/
def provisionSelfSignedTLS (genCert genKey : Nat)
    (fs : GoStr → Option Nat) (tlsCertPath tlsKeyPath : GoStr) :
    (GoStr → Option Nat) × Bool :=
  if (fs tlsCertPath).isSome = false ∧ (fs tlsKeyPath).isSome = false then
    (fun p =>
      if p = tlsCertPath then some genCert
      else if p = tlsKeyPath then some genKey
      else fs p,
     true)
  else (fs, false)

/-- `onDemandListener` (config.go lines 703-706): the inner listener is
`nil` (`none`) until the first successful `Accept`.  Listener handles
are modelled as natural numbers. -/
structure OnDemandListener where
  addr : GoStr
  lis : Option Nat
deriving DecidableEq, Repr

/-- A freshly constructed on-demand listener: only the address is set,
the inner listener is the zero value `nil`. -/
def mkOnDemandListener (addr : GoStr) : OnDemandListener :=
  { addr := addr, lis := none }

/-- Model of `onDemandListener.Accept` (config.go lines 709-718).
`netListen` models `net.Listen` (`none` = bind error), `innerAccept`
the inner listener's `Accept`.  Returns the updated listener state and
the accept result. -/
def odlAccept (netListen : GoStr → Option Nat)
    (innerAccept : Nat → Except Unit Nat) (l : OnDemandListener) :
    OnDemandListener × Except Unit Nat :=
  match l.lis with
  | none =>
    match netListen l.addr with
    | none => (l, Except.error ())
    | some s => ({ l with lis := some s }, innerAccept s)
  | some s => (l, innerAccept s)

/-- Model of `onDemandListener.Close` (config.go lines 722-724): it
calls `l.lis.Close()` unconditionally.  When the inner listener is
still `nil` this is a method call on a nil interface value, which
panics at runtime; the panic is modelled as `none`. -/
def odlClose (innerClose : Nat → Except Unit Unit) (l : OnDemandListener) :
    Option (Except Unit Unit) :=
  match l.lis with
  | none => none
  | some s => some (innerClose s)

/- Concrete fixtures used by witnesses and counterexamples. -/

/-- A concrete set of external collaborators: every external call
succeeds, no password file is readable, no environment variable is set,
and exactly the four documented networks have chain parameters. -/
def extFix : Externals := {
  dataDir := "/data".data
  defaultLitDir := "/lit".data
  chainParamsOk := fun n =>
    decide (n = defaultNetwork ∨ n = testnetStr ∨ n = regtestStr ∨
      n = simnetStr)
  cleanExpand := fun p => p
  mkdirOk := fun _ => true
  fileRead := fun _ => none
  getenv := fun _ => []
  lndValidateOk := true
  logRotatorOk := true
  debugLevelOk := true
  loopValidateOk := true
  poolValidateOk := true
  faradayValidateOk := true
  bitcoinClientOk := true }

/-- A remote section whose macaroon directory is non-default and whose
macaroon path is non-empty at the same time. -/
def remoteConflictFix : RemoteConfig := {
  litTLSCertPath := "/lit/tls.cert".data
  litTLSKeyPath := "/lit/tls.key".data
  litLogDir := "/lit/logs".data
  lnd := {
    network := defaultNetwork
    rpcServer := "localhost:10009".data
    macaroonDir := "/custom/macdir".data
    macaroonPath := "/custom/admin.macaroon".data
    tlsCertPath := "/lnd/tls.cert".data } }

/-- An integrated-mode configuration carrying the conflicting remote
macaroon settings of `remoteConflictFix`, with every other option
well-formed (mainnet, one RPC listener, a strong direct UI password). -/
def cfgIntegratedConflict : Config := {
  uiPassword := "password1".data
  uiPasswordFile := []
  uiPasswordEnv := []
  letsEncrypt := false
  letsEncryptHost := []
  letsEncryptDir := "/lit/letsencrypt".data
  lndMode := ModeIntegrated
  litDir := "/lit".data
  remote := remoteConflictFix
  lndBitcoin := { mainNet := true, testNet3 := false, regTest := false, simNet := false }
  rpcListenersCount := 1
  faradayChainConn := false
  network := [] }

/-- The same configuration in remote mode. -/
def cfgRemoteConflict : Config :=
  { cfgIntegratedConflict with lndMode := ModeRemote }

/-- An integrated-mode configuration with no UI credential configured
at all. -/
def cfgNoCredential : Config := { cfgIntegratedConflict with uiPassword := [] }

/-- A remote-mode testnet configuration whose macaroon directory is
still at its default value. -/
def cfgRemoteTestnet : Config := { cfgIntegratedConflict with
  lndMode := ModeRemote
  remote := { remoteConflictFix with lnd := { remoteConflictFix.lnd with
    network := testnetStr
    macaroonDir := defaultRemoteLndMacDir ("/data".data)
    macaroonPath := [] } } }

/-- An otherwise well-formed configuration whose direct UI password has
exactly 7 characters. -/
def cfgPw7 : Config := { cfgIntegratedConflict with uiPassword := "1234567".data }

/-- An otherwise well-formed configuration whose direct UI password has
exactly 8 characters. -/
def cfgPw8 : Config := { cfgIntegratedConflict with uiPassword := "12345678".data }

/-- Flag-parsing outcomes: everything parses, config file present. -/
def inpParsed : ParseInputs :=
  { preFlagsOk := true, flagsOk := true, fileResult := FileParseResult.parsed }

/-- Flag-parsing outcomes: everything parses, config file absent. -/
def inpFileAbsent : ParseInputs :=
  { preFlagsOk := true, flagsOk := true,
    fileResult := FileParseResult.readError }

end LitConfig

namespace LitConfig

/-- C6: the in-process dial-address loopback rewrite maps
`0.0.0.0:10009` to `127.0.0.1:10009`, maps `[::]:10009` to
`[::1]:10009`, and returns `192.168.1.5:10009` unchanged. -/
theorem rewriteLndDialAddr_wildcard_cases :
    rewriteLndDialAddr ("0.0.0.0:10009".data) = "127.0.0.1:10009".data ∧
    rewriteLndDialAddr ("[::]:10009".data) = "[::1]:10009".data ∧
    rewriteLndDialAddr ("192.168.1.5:10009".data) =
      "192.168.1.5:10009".data :=
  ⟨by rfl, by rfl, by rfl⟩

/-- C9: the loopback rewrite matches by substring, not by parsed host:
the non-wildcard address `10.0.0.0:10009` has `0.0.0.0` as a substring
of its host, so the rewrite replaces it and returns the malformed
address `1127.0.0.1:10009` instead of leaving the address unchanged. -/
theorem rewriteLndDialAddr_substring_rewrite :
    rewriteLndDialAddr ("10.0.0.0:10009".data) = "1127.0.0.1:10009".data ∧
    rewriteLndDialAddr ("10.0.0.0:10009".data) ≠ "10.0.0.0:10009".data :=
  ⟨by rfl, by decide⟩

/-- C2: UI credential resolution consults the three sources in priority
order direct value > password file > environment variable; the first
source whose configured value is non-blank after trimming wins, the
sources are never combined, and the resolved credential is the winning
source's value trimmed of surrounding whitespace (for the file and
environment sources: the trimmed content read from that source). -/
theorem readUIPassword_priority (fileRead : GoStr → Option GoStr)
    (getenv : GoStr → GoStr) (p f e : GoStr) :
    (trimSpace p ≠ [] →
      readUIPassword fileRead getenv p f e = Except.ok (trimSpace p)) ∧
    (trimSpace p = [] → trimSpace f ≠ [] →
      readUIPassword fileRead getenv p f e =
        (match fileRead (trimSpace f) with
         | none => Except.error Err.fileUnreadable
         | some content => Except.ok (trimSpace content))) ∧
    (trimSpace p = [] → trimSpace f = [] → trimSpace e ≠ [] →
        getenv (trimSpace e) ≠ [] →
      readUIPassword fileRead getenv p f e =
        Except.ok (trimSpace (getenv (trimSpace e)))) ∧
    (trimSpace p = [] → trimSpace f = [] → trimSpace e = [] →
      readUIPassword fileRead getenv p f e =
        Except.error Err.noCredentialConfigured) := by
  refine ⟨fun hp => ?_, fun hp hf => ?_, fun hp hf he hv => ?_,
    fun hp hf he => ?_⟩
  · rw [readUIPassword, if_pos (List.length_pos.mpr hp)]
  · rw [readUIPassword, if_neg (by simp [hp]),
      if_pos (List.length_pos.mpr hf)]
  · rw [readUIPassword, if_neg (by simp [hp]), if_neg (by simp [hf]),
      if_pos (List.length_pos.mpr he)]
    simp only []
    rw [if_neg (by simp [hv])]
  · rw [readUIPassword, if_neg (by simp [hp]), if_neg (by simp [hf]),
      if_neg (by simp [he])]

/-- Witness for C2: concrete run where the direct value is set; it wins
and is returned trimmed. -/
theorem readUIPassword_priority_witness :
    trimSpace ("  hunter2!  ".data) ≠ [] ∧
    readUIPassword (fun _ => none) (fun _ => []) ("  hunter2!  ".data)
      ("/pw/file".data) ("PW_ENV".data) =
      Except.ok (trimSpace ("  hunter2!  ".data)) :=
  ⟨by decide,
   (readUIPassword_priority (fun _ => none) (fun _ => [])
     ("  hunter2!  ".data) ("/pw/file".data) ("PW_ENV".data)).1
     (by decide)⟩

/-- Counterexample for C7: with the direct and file sources blank and
an environment variable that is set to a single space (blank after
trimming), resolution does NOT fail with `EnvVarEmpty` — it succeeds
with the empty credential, because the code checks the raw length of
the environment value, not its trimmed length. -/
theorem envVar_whitespace_not_empty_error :
    trimSpace (" ".data) = [] ∧
    readUIPassword (fun _ => none) (fun _ => " ".data) [] []
      ("PW_ENV".data) = Except.ok [] ∧
    readUIPassword (fun _ => none) (fun _ => " ".data) [] []
      ("PW_ENV".data) ≠ Except.error Err.envVarEmpty :=
  ⟨by decide, by rfl, fun h => Except.noConfusion h⟩

/-- C7 amended: with the direct and file sources blank and an
environment-variable name supplied, resolution fails with `EnvVarEmpty`
exactly when the raw value of that variable is the empty string (unset
variables read as empty); a whitespace-only value does not fail but
resolves to the empty credential (which the later length check
rejects with a different error). -/
theorem readUIPassword_envVarEmpty_iff_raw_empty
    (fileRead : GoStr → Option GoStr) (getenv : GoStr → GoStr)
    (p f e : GoStr) (hp : trimSpace p = []) (hf : trimSpace f = [])
    (he : trimSpace e ≠ []) :
    (getenv (trimSpace e) = [] →
      readUIPassword fileRead getenv p f e = Except.error Err.envVarEmpty) ∧
    (getenv (trimSpace e) ≠ [] →
      readUIPassword fileRead getenv p f e =
        Except.ok (trimSpace (getenv (trimSpace e)))) := by
  constructor
  · intro hv
    rw [readUIPassword, if_neg (by simp [hp]), if_neg (by simp [hf]),
      if_pos (List.length_pos.mpr he)]
    simp only []
    rw [if_pos (by simp [hv])]
  · intro hv
    rw [readUIPassword, if_neg (by simp [hp]), if_neg (by simp [hf]),
      if_pos (List.length_pos.mpr he)]
    simp only []
    rw [if_neg (by simp [hv])]

/-- Witness for the amended C7: a concrete unset environment variable
produces the `EnvVarEmpty` error. -/
theorem readUIPassword_envVarEmpty_witness :
    trimSpace ("PW_ENV".data) ≠ [] ∧
    readUIPassword (fun _ => none) (fun _ => []) [] [] ("PW_ENV".data) =
      Except.error Err.envVarEmpty :=
  ⟨by decide,
   (readUIPassword_envVarEmpty_iff_raw_empty (fun _ => none) (fun _ => [])
     [] [] ("PW_ENV".data) (by decide) (by decide) (by decide)).1 (by rfl)⟩

/-- Helper: in remote mode, with a network that has chain parameters, a
non-default macaroon directory together with a non-empty macaroon path
makes `validateRemoteModeConfig` fail with the macaroon-conflict
error. -/
theorem validateRemote_conflict_err (ext : Externals) (cfg : Config)
    (hnet : ext.chainParamsOk cfg.remote.lnd.network = true)
    (hdir : cfg.remote.lnd.macaroonDir ≠ defaultRemoteLndMacDir ext.dataDir)
    (hpath : cfg.remote.lnd.macaroonPath ≠ []) :
    validateRemoteModeConfig ext cfg =
      ({ cfg with network := cfg.remote.lnd.network },
       Except.error Err.conflictingMacaroonConfig) := by
  rw [validateRemoteModeConfig, if_neg (by simp [hnet]), if_pos ⟨hdir, hpath⟩]

/-- Counterexample for C1: an Integrated-mode configuration with a
non-empty remote macaroon path AND a non-default remote macaroon
directory resolves successfully — the conflict is only checked in
Remote mode, so resolution does not fail with
`ConflictingMacaroonConfig` regardless of mode. -/
theorem conflicting_macaroon_integrated_counterexample :
    cfgIntegratedConflict.remote.lnd.macaroonPath ≠ [] ∧
    cfgIntegratedConflict.remote.lnd.macaroonDir ≠
      defaultRemoteLndMacDir extFix.dataDir ∧
    cfgIntegratedConflict.lndMode = ModeIntegrated ∧
    exceptIsOk (loadAndValidateConfig extFix inpParsed
      cfgIntegratedConflict).2 = true :=
  ⟨by decide, by decide, by rfl, by rfl⟩

/-- C1 amended: in Remote mode (and only there), whenever the remote
network has chain parameters, the flag passes parse, and the lit
directory can be created, a configuration with a non-empty
`MacaroonPath` and a `MacaroonDir` different from its default fails
with the `ConflictingMacaroonConfig` error; Integrated mode never
performs this check. -/
theorem conflicting_macaroon_remote_only (ext : Externals)
    (inp : ParseInputs) (cfg : Config)
    (hmode : cfg.lndMode = ModeRemote)
    (hini : inp.fileResult ≠ FileParseResult.iniError)
    (hflags : inp.flagsOk = true)
    (hmkdir : ext.mkdirOk (ext.cleanExpand cfg.litDir) = true)
    (hnet : ext.chainParamsOk cfg.remote.lnd.network = true)
    (hdir : cfg.remote.lnd.macaroonDir ≠ defaultRemoteLndMacDir ext.dataDir)
    (hpath : cfg.remote.lnd.macaroonPath ≠ []) :
    (loadConfigFile ext inp cfg).2 =
      Except.error Err.conflictingMacaroonConfig := by
  rw [loadConfigFile, if_neg hini, if_neg (by simp [hflags]),
    if_neg (by simp [hmkdir]), if_neg (by rw [hmode]; decide),
    if_pos hmode, validateRemote_conflict_err ext cfg hnet hdir hpath]

/-- Witness for the amended C1: the concrete Remote-mode configuration
with conflicting macaroon settings fails with the conflict error. -/
theorem conflicting_macaroon_remote_only_witness :
    cfgRemoteConflict.lndMode = ModeRemote ∧
    (loadConfigFile extFix inpParsed cfgRemoteConflict).2 =
      Except.error Err.conflictingMacaroonConfig :=
  ⟨by rfl,
   conflicting_macaroon_remote_only extFix inpParsed cfgRemoteConflict
     (by rfl) (by decide) (by rfl) (by rfl) (by decide) (by decide)
     (by decide)⟩

/-- Counterexample for C3: with the config file absent, the deferred
warning IS logged (first component `true`) in a run that then fails
fatally in UI-credential resolution — the warning precedes the
UI-credential, length, listener-count and sub-daemon checks, so a
fatal error from those checks is preceded by the warning. -/
theorem configFileWarning_precedes_credential_error :
    loadAndValidateConfig extFix inpFileAbsent cfgNoCredential =
      (true, Except.error Err.noCredentialConfigured) := by rfl

/-- C3 amended: the deferred config-file warning is logged only when
the whole of config-file loading has succeeded (flag re-parsing,
directory creation and mode-specific validation), so flag and
mode-validation errors are never preceded by it; it is however logged
before UI-credential resolution, the length check, the listener-count
check and sub-daemon validation, which run afterwards. -/
theorem configFileWarning_only_after_load_success (ext : Externals)
    (inp : ParseInputs) (cfg : Config)
    (h : (loadConfigFile ext inp cfg).1 = true) :
    inp.fileResult = FileParseResult.readError ∧
    exceptIsOk (loadConfigFile ext inp cfg).2 = true := by
  rcases hE : loadConfigFile ext inp cfg with ⟨w, r⟩
  rw [hE] at h
  simp only [] at h
  rw [loadConfigFile] at hE
  repeat' split at hE
  all_goals cases hE
  all_goals simp_all [exceptIsOk]

/-- Witness for the amended C3: a concrete run with an absent config
file in which the warning is logged and loading succeeded. -/
theorem configFileWarning_only_after_load_success_witness :
    inpFileAbsent.fileResult = FileParseResult.readError ∧
    exceptIsOk (loadConfigFile extFix inpFileAbsent
      cfgIntegratedConflict).2 = true :=
  configFileWarning_only_after_load_success extFix inpFileAbsent
    cfgIntegratedConflict (by rfl)

/-- Helper: `takeWhile` of a list followed by an element that fails the
predicate returns exactly that list, when every element of the list
satisfies the predicate. -/
theorem takeWhile_append_stop {α : Type} (q : α → Bool) (l : List α) (x : α)
    (rest : List α) (hl : ∀ c ∈ l, q c = true) (hx : q x = false) :
    (l ++ x :: rest).takeWhile q = l := by
  induction l with
  | nil => simp [List.takeWhile_cons, hx]
  | cons a as ih =>
    have ha : q a = true := hl a (by simp)
    simp [List.takeWhile_cons, ha, ih (fun c hc => hl c (by simp [hc]))]

/-- Helper: the final path segment of a joined path is the last
component, provided it contains no separator. -/
theorem lastPathSegment_join2 (a b : GoStr) (hb : ∀ c ∈ b, c ≠ '/') :
    lastPathSegment (filepathJoin2 a b) = b := by
  rw [lastPathSegment, filepathJoin2, List.reverse_append, List.reverse_cons,
    List.append_assoc, List.singleton_append]
  rw [takeWhile_append_stop _ _ _ _
    (fun c hc => by simp [hb c (List.mem_reverse.mp hc)]) (by decide)]
  exact List.reverse_reverse b

/-- Helper: when the network is valid and the macaroon settings do not
conflict, the macaroon directory in the state returned by
`validateRemoteModeConfig` is the network-adjusted one. -/
theorem validateRemote_macDir (ext : Externals) (cfg : Config)
    (hok : ext.chainParamsOk cfg.remote.lnd.network = true)
    (hnc : ¬(cfg.remote.lnd.macaroonDir ≠ defaultRemoteLndMacDir ext.dataDir ∧
      cfg.remote.lnd.macaroonPath ≠ [])) :
    (validateRemoteModeConfig ext cfg).1.remote.lnd.macaroonDir =
      adjustedMacaroonDir ext cfg.remote.lnd := by
  rw [validateRemoteModeConfig, if_neg (by simp [hok]), if_neg hnc]
  show (remoteResolvePaths ext
    { cfg with network := cfg.remote.lnd.network }).remote.lnd.macaroonDir =
    adjustedMacaroonDir ext cfg.remote.lnd
  simp only [remoteResolvePaths]
  split <;> rfl

/-- C4: for every supported network, Remote-mode resolution with the
macaroon directory still at its default rewrites the macaroon directory
so that its final path segment is the network name whenever the network
is not mainnet, and leaves the macaroon directory unchanged when the
network is mainnet. -/
theorem remote_macaroonDir_network_rewrite (ext : Externals) (cfg : Config)
    (hnet4 : cfg.remote.lnd.network = defaultNetwork ∨
      cfg.remote.lnd.network = testnetStr ∨
      cfg.remote.lnd.network = regtestStr ∨
      cfg.remote.lnd.network = simnetStr)
    (hok : ext.chainParamsOk cfg.remote.lnd.network = true)
    (hdef : cfg.remote.lnd.macaroonDir = defaultRemoteLndMacDir ext.dataDir) :
    (cfg.remote.lnd.network ≠ defaultNetwork →
      (validateRemoteModeConfig ext cfg).1.remote.lnd.macaroonDir =
        filepathJoin4 ext.dataDir defaultLndChainSubDir defaultLndChain
          cfg.remote.lnd.network ∧
      lastPathSegment
          ((validateRemoteModeConfig ext cfg).1.remote.lnd.macaroonDir) =
        cfg.remote.lnd.network) ∧
    (cfg.remote.lnd.network = defaultNetwork →
      (validateRemoteModeConfig ext cfg).1.remote.lnd.macaroonDir =
        cfg.remote.lnd.macaroonDir) := by
  have hnc : ¬(cfg.remote.lnd.macaroonDir ≠ defaultRemoteLndMacDir
      ext.dataDir ∧ cfg.remote.lnd.macaroonPath ≠ []) := fun h => h.1 hdef
  have hmac := validateRemote_macDir ext cfg hok hnc
  constructor
  · intro hne
    have hadj : adjustedMacaroonDir ext cfg.remote.lnd =
        filepathJoin4 ext.dataDir defaultLndChainSubDir defaultLndChain
          cfg.remote.lnd.network := by
      rw [adjustedMacaroonDir, if_pos ⟨hne, hdef⟩]
    have hnoslash : ∀ c ∈ cfg.remote.lnd.network, c ≠ '/' := by
      rcases hnet4 with h | h | h | h <;> rw [h] <;> decide
    refine ⟨by rw [hmac, hadj], ?_⟩
    rw [hmac, hadj]
    exact lastPathSegment_join2 _ _ hnoslash
  · intro heq
    rw [hmac, adjustedMacaroonDir, if_neg (by simp [heq])]

/-- Witness for C4: the concrete Remote-mode testnet configuration gets
its macaroon directory rewritten to end in the network name. -/
theorem remote_macaroonDir_network_rewrite_witness :
    testnetStr ≠ defaultNetwork ∧
    (validateRemoteModeConfig extFix cfgRemoteTestnet).1.remote.lnd.macaroonDir
      = filepathJoin4 ("/data".data) defaultLndChainSubDir defaultLndChain
        testnetStr ∧
    lastPathSegment ((validateRemoteModeConfig extFix
      cfgRemoteTestnet).1.remote.lnd.macaroonDir) = testnetStr :=
  ⟨by decide,
   ((remote_macaroonDir_network_rewrite extFix cfgRemoteTestnet
     (Or.inr (Or.inl rfl)) (by rfl) (by rfl)).1 (by decide)).1,
   ((remote_macaroonDir_network_rewrite extFix cfgRemoteTestnet
     (Or.inr (Or.inl rfl)) (by rfl) (by rfl)).1 (by decide)).2⟩

/-- C5: the self-signed TLS strategy generates and writes a new
certificate/key pair exactly when neither file exists on disk; when
either file already exists, the file system is left completely
unchanged (so an existing certificate or key is never overwritten), and
after generation both files exist while all other paths are
untouched. -/
theorem selfSigned_no_overwrite (genCert genKey : Nat)
    (fs : GoStr → Option Nat) (certP keyP : GoStr) :
    ((fs certP).isSome = true ∨ (fs keyP).isSome = true →
      provisionSelfSignedTLS genCert genKey fs certP keyP = (fs, false)) ∧
    ((fs certP).isSome = false ∧ (fs keyP).isSome = false →
      (provisionSelfSignedTLS genCert genKey fs certP keyP).2 = true ∧
      ((provisionSelfSignedTLS genCert genKey fs certP keyP).1 certP).isSome
        = true ∧
      ((provisionSelfSignedTLS genCert genKey fs certP keyP).1 keyP).isSome
        = true ∧
      ∀ p, p ≠ certP → p ≠ keyP →
        (provisionSelfSignedTLS genCert genKey fs certP keyP).1 p = fs p) := by
  constructor
  · intro h
    rcases h with h | h <;> simp [provisionSelfSignedTLS, h]
  · rintro ⟨h1, h2⟩
    refine ⟨by simp [provisionSelfSignedTLS, h1, h2], ?_, ?_, ?_⟩
    · simp [provisionSelfSignedTLS, h1, h2]
    · simp only [provisionSelfSignedTLS, if_pos (And.intro h1 h2)]
      split <;> simp
    · intro p hp hk
      simp [provisionSelfSignedTLS, h1, h2, hp, hk]

/-- Witness for C5: on an empty file system a pair is generated. -/
theorem selfSigned_no_overwrite_witness :
    ((fun _ => (none : Option Nat)) ("/lit/tls.cert".data)).isSome = false ∧
    (provisionSelfSignedTLS 1 2 (fun _ => none) ("/lit/tls.cert".data)
      ("/lit/tls.key".data)).2 = true :=
  ⟨by rfl,
   ((selfSigned_no_overwrite 1 2 (fun _ => none) ("/lit/tls.cert".data)
     ("/lit/tls.key".data)).2 ⟨rfl, rfl⟩).1⟩

/-- C8: for every resolved UI credential, a resolved credential shorter
than 8 characters makes resolution fail with the `CredentialTooWeak`
error, while a credential of exactly 8 characters always passes the
length check (the run can never fail with `CredentialTooWeak`). -/
theorem uiPassword_length_check (ext : Externals) (w : Bool) (cfg : Config)
    (pw : GoStr)
    (hHost : ¬(cfg.letsEncrypt = true ∧ cfg.letsEncryptHost = []))
    (hMk : ¬(cfg.letsEncrypt = true ∧
      ext.mkdirOk (resolvedLetsEncryptDir ext cfg) = false))
    (hui : readUIPassword ext.fileRead ext.getenv cfg.uiPassword
      cfg.uiPasswordFile cfg.uiPasswordEnv = Except.ok pw) :
    (pw.length < uiPasswordMinLength →
      validateAfterLoad ext w cfg = (w, Except.error Err.credentialTooWeak)) ∧
    (pw.length = uiPasswordMinLength →
      (validateAfterLoad ext w cfg).2 ≠
        Except.error Err.credentialTooWeak) := by
  have hui2 : readUIPassword ext.fileRead ext.getenv
      ({ cfg with letsEncryptDir :=
        resolvedLetsEncryptDir ext cfg }).uiPassword
      ({ cfg with letsEncryptDir :=
        resolvedLetsEncryptDir ext cfg }).uiPasswordFile
      ({ cfg with letsEncryptDir :=
        resolvedLetsEncryptDir ext cfg }).uiPasswordEnv =
      Except.ok pw := hui
  constructor
  · intro hlen
    rw [validateAfterLoad, validateAfterDir, if_neg hHost, if_neg hMk, hui2]
    show lengthAndSubdaemonChecks ext w _ = _
    rw [lengthAndSubdaemonChecks, if_pos hlen]
  · intro hlen
    rw [validateAfterLoad, validateAfterDir, if_neg hHost, if_neg hMk, hui2]
    show (lengthAndSubdaemonChecks ext w _).2 ≠ _
    rw [lengthAndSubdaemonChecks, if_neg (by simp [hlen])]
    split
    · simp
    · split
      · simp
      · split
        · simp
        · split
          · simp
          · split
            · simp
            · simp

/-- Witness for C8: a 7-character password fails with
`CredentialTooWeak`, an 8-character one never does. -/
theorem uiPassword_length_check_witness :
    validateAfterLoad extFix true cfgPw7 =
      (true, Except.error Err.credentialTooWeak) ∧
    (validateAfterLoad extFix true cfgPw8).2 ≠
      Except.error Err.credentialTooWeak :=
  ⟨(uiPassword_length_check extFix true cfgPw7 ("1234567".data)
      (by decide) (by decide) (by rfl)).1 (by decide),
   (uiPassword_length_check extFix true cfgPw8 ("12345678".data)
      (by decide) (by decide) (by rfl)).2 (by decide)⟩

/-- C10: calling `Close` on a deferred-bind listener whose inner
listener is still `nil` (i.e. before any successful `Accept`)
dereferences the nil listener and panics (modelled as `none`); once
`Accept` has bound the underlying listener, `Close` is total and
delegates to it. -/
theorem odlClose_nil_before_accept (netListen : GoStr → Option Nat)
    (innerAccept : Nat → Except Unit Nat)
    (innerClose : Nat → Except Unit Unit)
    (l : OnDemandListener) (s : Nat) (h : l.lis = none) :
    odlClose innerClose l = none ∧
    (netListen l.addr = some s →
      odlClose innerClose (odlAccept netListen innerAccept l).1 =
        some (innerClose s)) := by
  constructor
  · simp [odlClose, h]
  · intro hb
    simp [odlAccept, odlClose, h, hb]

/-- Witness for C10: closing a freshly constructed listener panics. -/
theorem odlClose_nil_before_accept_witness :
    (mkOnDemandListener ("127.0.0.1:8443".data)).lis = none ∧
    odlClose (fun _ => Except.ok ())
      (mkOnDemandListener ("127.0.0.1:8443".data)) = none :=
  ⟨by rfl,
   (odlClose_nil_before_accept (fun _ => some 0) (fun _ => Except.error ())
     (fun _ => Except.ok ()) (mkOnDemandListener ("127.0.0.1:8443".data)) 0
     (by rfl)).1⟩

end LitConfig
